import Mathlib

/-!
Verification of the reddit-tracker core (package `api`): the token-bucket
rate limiter and the Reddit API client.

Modelling conventions for the shallow embedding:
* Go `float64` values are modelled as `ℚ` (exact arithmetic); Go `int` as `ℤ`.
* `time.Time` / `time.Duration` are modelled as `ℚ` seconds.  The wall-clock
  bookkeeping done through `lastRefill` is replaced by passing the elapsed
  time since the previous refill explicitly to each operation.
* Mutexes are elided: each exported operation is modelled as a pure function
  on the state, which is exactly the behaviour of the Go code when the
  operations are serialized by the locks.
* Network effects (HTTP responses, rate-acquisition outcomes, sleeps) are
  supplied by an explicit oracle trace, and the sleeps performed are
  returned as data.
-/

namespace RedditTracker

/-- Constant `defaultLimit = 100`: the max number of posts per request. -/
def defaultLimit : ℤ := 100

/-- Constant `baseURL` for the Reddit API. -/
def baseURL : String := "https://oauth.reddit.com"

/-- The token-bucket rate limiter state (`TokenBucket`).  `lastRefill` is
replaced by explicit elapsed-time arguments; the mutex is elided. -/
structure TokenBucket where
  capacity : ℤ
  tokens : ℚ
  fillRate : ℚ
  waitTimeout : ℚ
deriving DecidableEq, Repr

/-- Constructor `NewTokenBucket`: seeds the bucket with exactly one token. -/
def NewTokenBucket (capacity : ℤ) (fillRate : ℚ) (waitTimeout : ℚ) : TokenBucket :=
  { capacity := capacity
    tokens := 1
    fillRate := fillRate
    waitTimeout := waitTimeout }

/-- Operation `TokenBucket.Take`: refill `elapsed * fillRate` tokens (only when that
amount is positive, clamping at `capacity`), then take one token if at least
one is available.  Returns the success flag and the new state. -/
def TokenBucket.Take (tb : TokenBucket) (elapsed : ℚ) : Bool × TokenBucket :=
  let newTokens := elapsed * tb.fillRate
  let tb1 :=
    if 0 < newTokens then
      let t := tb.tokens + newTokens
      { tb with tokens := if (tb.capacity : ℚ) < t then (tb.capacity : ℚ) else t }
    else tb
  if 1 ≤ tb1.tokens then (true, { tb1 with tokens := tb1.tokens - 1 })
  else (false, tb1)

/-- Operation `TokenBucket.TakeWithTimeout`: try `Take`; on failure compute the time
until one token is available, clamp it to `waitTimeout`, sleep that long and
retry once.  The third component is the number of seconds slept. -/
def TokenBucket.TakeWithTimeout (tb : TokenBucket) (elapsed : ℚ) :
    Bool × TokenBucket × ℚ :=
  let first := tb.Take elapsed
  if first.1 then (true, first.2, 0)
  else
    let tb1 := first.2
    let tokensNeeded := 1 - tb1.tokens
    let timeToWait0 := tokensNeeded / tb1.fillRate
    let timeToWait := if tb1.waitTimeout < timeToWait0 then tb1.waitTimeout else timeToWait0
    let second := tb1.Take timeToWait
    (second.1, second.2, timeToWait)

/-- Operation `TokenBucket.Update`: recompute the fill rate from the nominal Reddit
allocation (1000 requests per 600 seconds) with a 0.95 safety factor.  The
`used`, `reset` and `maxRequests` arguments are accepted but not used. -/
def TokenBucket.Update (tb : TokenBucket) (used : ℤ) (reset : ℤ)
    (maxRequests : ℤ) : TokenBucket :=
  let totalAllocationPeriod : ℤ := 600
  let totalAllocation : ℤ := 1000
  let fullRate : ℚ := (totalAllocation : ℚ) / (totalAllocationPeriod : ℚ)
  let targetRate : ℚ := fullRate * 0.95
  { tb with fillRate := targetRate }

/-- C2: with `capacity ≥ 1`, `0 ≤ tokens ≤ capacity`, `fillRate > 0` and
elapsed time `e ≥ 0`, `Take` first replaces `tokens` by
`min (tokens + e * fillRate) capacity`; if the refilled amount is at least 1
it returns `true` and decrements by exactly 1, otherwise it returns `false`
leaving the refilled amount unchanged. -/
theorem Take_spec (tb : TokenBucket) (e : ℚ)
    (hcap : 1 ≤ tb.capacity) (h0 : 0 ≤ tb.tokens)
    (h1 : tb.tokens ≤ (tb.capacity : ℚ)) (hr : 0 < tb.fillRate) (he : 0 ≤ e) :
    (1 ≤ min (tb.tokens + e * tb.fillRate) (tb.capacity : ℚ) →
      tb.Take e = (true,
        { tb with tokens := min (tb.tokens + e * tb.fillRate) (tb.capacity : ℚ) - 1 })) ∧
    (min (tb.tokens + e * tb.fillRate) (tb.capacity : ℚ) < 1 →
      tb.Take e = (false,
        { tb with tokens := min (tb.tokens + e * tb.fillRate) (tb.capacity : ℚ) })) := by
  have hmin : (if 0 < e * tb.fillRate then
      ({ tb with tokens := if (tb.capacity : ℚ) < tb.tokens + e * tb.fillRate then
          (tb.capacity : ℚ) else tb.tokens + e * tb.fillRate } : TokenBucket)
      else tb) =
      { tb with tokens := min (tb.tokens + e * tb.fillRate) (tb.capacity : ℚ) } := by
    rcases lt_or_eq_of_le (mul_nonneg he hr.le) with hpos | hzero
    · rw [if_pos hpos]
      rcases le_or_lt (tb.tokens + e * tb.fillRate) (tb.capacity : ℚ) with hle | hgt
      · rw [if_neg (not_lt.mpr hle), min_eq_left hle]
      · rw [if_pos hgt, min_eq_right hgt.le]
    · rw [if_neg (by rw [← hzero]; exact lt_irrefl 0), ← hzero, add_zero,
        min_eq_left h1]
  constructor
  · intro hge
    unfold TokenBucket.Take
    simp only [hmin]
    rw [if_pos hge]
  · intro hlt
    unfold TokenBucket.Take
    simp only [hmin]
    rw [if_neg (not_le.mpr hlt)]

/-- C1 counterexample: `Update(200, 400, 500)` yields
`fillRate = (1000/600) * 0.95`, not `(500/600) * 0.95`: the `total`
argument is ignored, so `fillRate = (total/600) * 0.95` fails whenever
`total ≠ 1000`. -/
theorem Update_total_dependence_cex :
    ((NewTokenBucket 1 1 30).Update 200 400 500).fillRate =
        ((1000 : ℚ) / 600) * 0.95 ∧
      ((NewTokenBucket 1 1 30).Update 200 400 500).fillRate ≠
        ((500 : ℚ) / 600) * 0.95 := by
  constructor
  · norm_num [NewTokenBucket, TokenBucket.Update]
  · norm_num [NewTokenBucket, TokenBucket.Update]

/-- C1 (amended): `Update` sets `fillRate` to the constant
`(1000/600) * 0.95`, independent of all three arguments `used`, `reset`
and `total`; in particular `Update(200, 400, 1000)` yields
`fillRate = (1000/600) * 0.95`. -/
theorem Update_fillRate_constant (tb : TokenBucket) (used reset total : ℤ) :
    (tb.Update used reset total).fillRate = ((1000 : ℚ) / 600) * 0.95 := by
  norm_num [TokenBucket.Update]

/-- The token-bucket data invariant: `0 ≤ tokens ≤ capacity`. -/
def TokenBucket.Inv (tb : TokenBucket) : Prop :=
  0 ≤ tb.tokens ∧ tb.tokens ≤ (tb.capacity : ℚ)

theorem TokenBucket.Take_inv (tb : TokenBucket) (e : ℚ) (h : tb.Inv) :
    ((tb.Take e).2).Inv := by
  obtain ⟨h0, h1⟩ := h
  have hcap : (0 : ℚ) ≤ (tb.capacity : ℚ) := le_trans h0 h1
  unfold TokenBucket.Take TokenBucket.Inv
  dsimp only
  split_ifs <;> refine ⟨?_, ?_⟩ <;> simp only [] at * <;> linarith

theorem TokenBucket.Take_fillRate (tb : TokenBucket) (e : ℚ) :
    ((tb.Take e).2).fillRate = tb.fillRate := by
  unfold TokenBucket.Take
  dsimp only
  split_ifs <;> rfl

theorem TokenBucket.Take_waitTimeout (tb : TokenBucket) (e : ℚ) :
    ((tb.Take e).2).waitTimeout = tb.waitTimeout := by
  unfold TokenBucket.Take
  dsimp only
  split_ifs <;> rfl

theorem TokenBucket.Take_capacity (tb : TokenBucket) (e : ℚ) :
    ((tb.Take e).2).capacity = tb.capacity := by
  unfold TokenBucket.Take
  dsimp only
  split_ifs <;> rfl

theorem TokenBucket.TakeWithTimeout_inv (tb : TokenBucket) (e : ℚ)
    (h : tb.Inv) : ((tb.TakeWithTimeout e).2.1).Inv := by
  unfold TokenBucket.TakeWithTimeout
  have h1 := tb.Take_inv e h
  dsimp only
  split_ifs <;> dsimp only <;>
    first
      | exact h1
      | exact TokenBucket.Take_inv _ _ h1

/-- C3: a bucket created by `NewTokenBucket` with `capacity ≥ 1` satisfies
`0 ≤ tokens ≤ capacity`, and the invariant is preserved by `Take`,
`TakeWithTimeout` and `Update` for every non-negative elapsed time. -/
theorem tokens_invariant :
    (∀ (c : ℤ) (r w : ℚ), 1 ≤ c → (NewTokenBucket c r w).Inv) ∧
    (∀ (tb : TokenBucket) (e : ℚ), tb.Inv → 0 ≤ e → ((tb.Take e).2).Inv) ∧
    (∀ (tb : TokenBucket) (e : ℚ), tb.Inv → 0 ≤ e →
      ((tb.TakeWithTimeout e).2.1).Inv) ∧
    (∀ (tb : TokenBucket) (used reset maxRequests : ℤ), tb.Inv →
      (tb.Update used reset maxRequests).Inv) := by
  refine ⟨?_, ?_, ?_, ?_⟩
  · intro c r w hc
    refine ⟨by norm_num [NewTokenBucket], ?_⟩
    show (1 : ℚ) ≤ (c : ℚ)
    exact_mod_cast hc
  · intro tb e h _
    exact tb.Take_inv e h
  · intro tb e h _
    exact tb.TakeWithTimeout_inv e h
  · intro tb used reset maxRequests h
    exact h

/-- Witness for `tokens_invariant` at a concrete bucket. -/
theorem tokens_invariant_witness :
    (NewTokenBucket 1 1 30).Inv ∧
      (((NewTokenBucket 1 1 30).Take 1).2).Inv := by
  constructor
  · exact tokens_invariant.1 1 1 30 (by decide)
  · exact tokens_invariant.2.1 (NewTokenBucket 1 1 30) 1
      (tokens_invariant.1 1 1 30 (by decide)) (by norm_num)

/-- C5: if the initial `Take` succeeds, `TakeWithTimeout` returns `true`
with no sleep; if it fails, the wait time is `(1 - tokens) / fillRate`
clamped to `waitTimeout`, the sleep is exactly that long, `Take` is retried
exactly once with that elapsed time, and its result is returned. -/
theorem TakeWithTimeout_spec (tb : TokenBucket) (e : ℚ)
    (hr : 0 < tb.fillRate) :
    ((tb.Take e).1 = true → tb.TakeWithTimeout e = (true, (tb.Take e).2, 0)) ∧
    ((tb.Take e).1 = false →
      tb.TakeWithTimeout e =
        ((((tb.Take e).2).Take
            (min ((1 - ((tb.Take e).2).tokens) / tb.fillRate) tb.waitTimeout)).1,
          (((tb.Take e).2).Take
            (min ((1 - ((tb.Take e).2).tokens) / tb.fillRate) tb.waitTimeout)).2,
          min ((1 - ((tb.Take e).2).tokens) / tb.fillRate) tb.waitTimeout)) := by
  constructor
  · intro hok
    unfold TokenBucket.TakeWithTimeout
    dsimp only
    rw [hok]
    simp
  · intro hfail
    unfold TokenBucket.TakeWithTimeout
    dsimp only
    rw [hfail]
    simp only [Bool.false_eq_true, if_false]
    rw [TokenBucket.Take_fillRate, TokenBucket.Take_waitTimeout]
    have hmin : (if tb.waitTimeout < (1 - ((tb.Take e).2).tokens) / tb.fillRate
        then tb.waitTimeout
        else (1 - ((tb.Take e).2).tokens) / tb.fillRate) =
        min ((1 - ((tb.Take e).2).tokens) / tb.fillRate) tb.waitTimeout := by
      rcases lt_or_le tb.waitTimeout ((1 - ((tb.Take e).2).tokens) / tb.fillRate)
        with hlt | hle
      · rw [if_pos hlt, min_eq_right hlt.le]
      · rw [if_neg (not_lt.mpr hle), min_eq_left hle]
    rw [hmin]

/-- Witness for `TakeWithTimeout_spec`: a bucket with no tokens fails the
first `Take`, waits `(1 - 0) / 1 = 1` second and succeeds on the retry. -/
theorem TakeWithTimeout_spec_witness :
    ({ capacity := 1, tokens := 0, fillRate := 1, waitTimeout := 30 } :
        TokenBucket).TakeWithTimeout 0 =
      (true, { capacity := 1, tokens := 0, fillRate := 1, waitTimeout := 30 },
        1) := by
  have h := (TakeWithTimeout_spec
    { capacity := 1, tokens := 0, fillRate := 1, waitTimeout := 30 } 0
    (by norm_num)).2 (by norm_num [TokenBucket.Take])
  rw [h]
  norm_num [TokenBucket.Take]

/-- Witness for `Take_spec` at a concrete bucket. -/
theorem Take_spec_witness :
    ({ capacity := 2, tokens := 1, fillRate := 1, waitTimeout := 30 } :
        TokenBucket).Take 1 =
      (true, { capacity := 2, tokens := 1, fillRate := 1, waitTimeout := 30 }) := by
  have h := (Take_spec
    { capacity := 2, tokens := 1, fillRate := 1, waitTimeout := 30 } 1
    (by decide) (by norm_num) (by norm_num) (by norm_num) (by norm_num)).1
    (by norm_num)
  rw [h]
  norm_num

/-- Driver `runTakes`: runs a sequence of `Take` calls, each preceded by the given
elapsed time; returns the final bucket and the number of successful calls. -/
def runTakes : TokenBucket → List ℚ → TokenBucket × ℕ
  | tb, [] => (tb, 0)
  | tb, e :: es =>
    let r := tb.Take e
    let rest := runTakes r.2 es
    (rest.1, (if r.1 then 1 else 0) + rest.2)

theorem TokenBucket.Take_step_bound (tb : TokenBucket) (e : ℚ)
    (hre : 0 ≤ e * tb.fillRate) :
    ((tb.Take e).2).tokens + (if (tb.Take e).1 then (1 : ℚ) else 0) ≤
      tb.tokens + e * tb.fillRate := by
  unfold TokenBucket.Take
  dsimp only
  split_ifs <;> simp only [] at * <;> linarith

theorem TokenBucket.Take_tokens_nonneg (tb : TokenBucket) (e : ℚ)
    (hcap : 0 ≤ (tb.capacity : ℚ)) (h0 : 0 ≤ tb.tokens) :
    0 ≤ ((tb.Take e).2).tokens := by
  unfold TokenBucket.Take
  dsimp only
  split_ifs <;> simp only [] at * <;> linarith

theorem runTakes_bound (es : List ℚ) : ∀ tb : TokenBucket,
    0 ≤ (tb.capacity : ℚ) → 0 ≤ tb.tokens → 0 ≤ tb.fillRate →
    (∀ e ∈ es, 0 ≤ e) →
    (((runTakes tb es).2 : ℕ) : ℚ) ≤ tb.tokens + tb.fillRate * es.sum := by
  induction es with
  | nil =>
    intro tb _ h0 _ _
    simp only [runTakes, List.sum_nil, mul_zero, add_zero, Nat.cast_zero]
    exact h0
  | cons e es ih =>
    intro tb hcap h0 hr hes
    have he : 0 ≤ e := hes e (List.mem_cons_self _ _)
    have hre : 0 ≤ e * tb.fillRate := mul_nonneg he hr
    have hstep := tb.Take_step_bound e hre
    have hnn := tb.Take_tokens_nonneg e hcap h0
    have hcap2 : 0 ≤ (((tb.Take e).2).capacity : ℚ) := by
      rw [TokenBucket.Take_capacity]; exact hcap
    have hr2 : 0 ≤ ((tb.Take e).2).fillRate := by
      rw [TokenBucket.Take_fillRate]; exact hr
    have ihh := ih ((tb.Take e).2) hcap2 hnn hr2
      (fun x hx => hes x (List.mem_cons_of_mem _ hx))
    rw [TokenBucket.Take_fillRate] at ihh
    simp only [runTakes, List.sum_cons, Nat.cast_add]
    by_cases hb : (tb.Take e).1 = true
    · simp only [hb, if_true, Nat.cast_one] at hstep ⊢
      nlinarith [ihh, hstep]
    · simp [hb] at hstep ⊢
      nlinarith [ihh, hstep]

/-- C4 counterexample: with capacity 1, fill rate 1 and the seed token,
three `Take` calls spaced by elapsed times 0, 1, 1 (total elapsed 2) all
succeed, so 3 successes exceed `min ⌊1 + 1*2⌋ capacity = 1`: the number of
successes is not bounded by the capacity cap. -/
theorem take_successes_capacity_cap_cex :
    (runTakes (NewTokenBucket 1 1 30) [0, 1, 1]).2 = 3 ∧
      ¬ (((runTakes (NewTokenBucket 1 1 30) [0, 1, 1]).2 : ℤ) ≤
        min ⌊(NewTokenBucket 1 1 30).tokens +
            (NewTokenBucket 1 1 30).fillRate * ([0, 1, 1] : List ℚ).sum⌋
          (NewTokenBucket 1 1 30).capacity) := by
  constructor <;>
    norm_num [runTakes, NewTokenBucket, TokenBucket.Take]

/-- C4 (amended): for every sequence of `Take` calls with non-negative
spacing summing to total elapsed time `t`, on a bucket with non-negative
capacity, token count and fill rate `r`, the number of successes never
exceeds `⌊initial_tokens + r * t⌋`.  (No cap at `capacity` applies to the
success count: see the counterexample.) -/
theorem take_successes_bound (tb : TokenBucket) (es : List ℚ)
    (hcap : 0 ≤ tb.capacity) (h0 : 0 ≤ tb.tokens) (hr : 0 ≤ tb.fillRate)
    (hes : ∀ e ∈ es, 0 ≤ e) :
    (((runTakes tb es).2 : ℕ) : ℤ) ≤ ⌊tb.tokens + tb.fillRate * es.sum⌋ := by
  rw [Int.le_floor]
  have hcapq : 0 ≤ (tb.capacity : ℚ) := by exact_mod_cast hcap
  have h := runTakes_bound es tb hcapq h0 hr hes
  exact_mod_cast h

/-- Witness for `take_successes_bound`: the counterexample run, bounded by
`⌊1 + 1 * 2⌋ = 3`. -/
theorem take_successes_bound_witness :
    (((runTakes (NewTokenBucket 1 1 30) [0, 1, 1]).2 : ℕ) : ℤ) ≤
      ⌊(NewTokenBucket 1 1 30).tokens +
        (NewTokenBucket 1 1 30).fillRate * ([0, 1, 1] : List ℚ).sum⌋ :=
  take_successes_bound (NewTokenBucket 1 1 30) [0, 1, 1]
    (by norm_num [NewTokenBucket]) (by norm_num [NewTokenBucket])
    (by norm_num [NewTokenBucket])
    (by intro e he; fin_cases he <;> norm_num)

/-- Digit accumulator for the model of Go's `strconv.Atoi`: consumes the
remaining characters, failing on any non-digit. -/
def parseDigits : List Char → ℕ → Option ℕ
  | [], acc => some acc
  | c :: cs, acc =>
    if c.isDigit then parseDigits cs (10 * acc + (c.toNat - 48)) else none

/-- Model of Go's `strconv.Atoi`: an optional sign followed by at least one
digit; `none` on the empty string or any malformed input.  (Go's overflow
check is elided: header values are far below the `int64` range.) -/
def Atoi (s : String) : Option ℤ :=
  match s.data with
  | [] => none
  | c :: cs =>
    if c = Char.ofNat 45 then
      match cs with
      | [] => none
      | _ :: _ => (parseDigits cs 0).map (fun n => -(n : ℤ))
    else if c = Char.ofNat 43 then
      match cs with
      | [] => none
      | _ :: _ => (parseDigits cs 0).map (fun n => (n : ℤ))
    else (parseDigits (c :: cs) 0).map (fun n => (n : ℤ))

/-- Function `getHeaderAsInt`: a missing header (Go's `Header.Get` returns
the empty string) or a value `strconv.Atoi` rejects both yield 0.  The
header lookup itself is modelled by passing the header's raw value. -/
def getHeaderAsInt (value : String) : ℤ :=
  if value = "" then 0
  else
    match Atoi value with
    | none => 0
    | some intValue => intValue

/-- The raw values of the three `X-Ratelimit-*` response headers; a missing
header is the empty string. -/
structure RateHeaders where
  used : String
  remaining : String
  reset : String
deriving DecidableEq, Repr

/-- The mutable fields of the `RedditAPI` client touched by the modelled
operations.  The `http.Client`, logger and credential strings are elided;
`tokenExpiry` is a time in seconds (`ℚ`), compared against an explicit
current time. -/
structure ClientState where
  accessToken : String
  tokenExpiry : ℚ
  rateRemainingCached : ℤ
  rateResetCached : ℤ
  rateUsedCached : ℤ
  rateLimiter : TokenBucket
  maxRequestsPerMin : ℤ
deriving DecidableEq, Repr

/-- Method `updateRateLimits`: parse the three rate headers; if `reset` and
`used` both come out 0 return with no change at all, otherwise cache the
three values and update the limiter's rate. -/
def updateRateLimits (r : ClientState) (h : RateHeaders) : ClientState :=
  let used := getHeaderAsInt h.used
  let remaining := getHeaderAsInt h.remaining
  let reset := getHeaderAsInt h.reset
  if reset = 0 ∧ used = 0 then r
  else
    { r with
      rateRemainingCached := remaining
      rateResetCached := reset
      rateUsedCached := used
      rateLimiter := r.rateLimiter.Update used reset r.maxRequestsPerMin }

/-- The typed errors produced by `authenticate` and `FetchPosts` (each
constructor stands for one `fmt.Errorf` site). -/
inductive APIError
  | authRateLimit : APIError
  | authRequestFailed : APIError
  | authStatusError (status : ℤ) : APIError
  | authDecodeError : APIError
  | requestFailed : APIError
  | statusError (status : ℤ) : APIError
  | decodeError : APIError
deriving DecidableEq, Repr

/-- The decoded body of a successful token-exchange response. -/
structure AuthBody where
  accessToken : String
  expiresIn : ℤ
deriving DecidableEq, Repr

/-- Oracle outcome of the auth HTTP exchange: a transport error, or a
response carrying a status, rate headers and a (possibly undecodable)
body. -/
inductive AuthOutcome
  | netError : AuthOutcome
  | response (status : ℤ) (headers : RateHeaders) (decodeOk : Bool)
      (body : AuthBody) : AuthOutcome
deriving DecidableEq, Repr

/-- Method `authenticate`: return immediately when a non-empty token is
held and the current time is before its expiry; otherwise acquire a
rate-limiter token (failure is the rate-limit error), run the token
exchange, feed the response headers to `updateRateLimits`, and on a 200
with a decodable body store the new token and expiry.  The `Bool` result
records whether a rate-limiter acquisition was attempted. -/
def authenticate (r : ClientState) (now : ℚ) (rateOk : Bool)
    (out : AuthOutcome) : Except APIError Unit × ClientState × Bool :=
  if r.accessToken ≠ "" ∧ now < r.tokenExpiry then (Except.ok (), r, false)
  else if rateOk = false then (Except.error APIError.authRateLimit, r, true)
  else
    match out with
    | AuthOutcome.netError => (Except.error APIError.authRequestFailed, r, true)
    | AuthOutcome.response status headers decodeOk body =>
      let r1 := updateRateLimits r headers
      if status ≠ 200 then
        (Except.error (APIError.authStatusError status), r1, true)
      else if decodeOk = false then
        (Except.error APIError.authDecodeError, r1, true)
      else
        (Except.ok (),
          { r1 with
            accessToken := body.accessToken
            tokenExpiry := now + (body.expiresIn : ℚ) }, true)

/-- One element of the Reddit listing (the fields read out of
`RedditPost.Data`). -/
structure RedditPostData where
  id : String
  name : String
  title : String
  author : String
  subreddit : String
  url : String
  createdUTC : ℚ
  ups : ℤ
  downs : ℤ
  score : ℤ
  numComments : ℤ
  postHint : String
  isVideo : Bool
  isSelf : Bool
  selfText : String
  permalink : String
deriving DecidableEq, Repr

/-- The `models.Post` structure (times as `ℚ` seconds). -/
structure Post where
  id : String
  title : String
  author : String
  subreddit : String
  url : String
  createdUTC : ℚ
  createdAt : ℚ
  upvotes : ℤ
  downvotes : ℤ
  score : ℤ
  numComments : ℤ
  postHint : String
  isVideo : Bool
  isSelf : Bool
  selfText : String
  permalink : String
  processedTime : ℚ
deriving DecidableEq, Repr

/-- Truncation toward zero, modelling Go's `int64(float64)` conversion. -/
def intTrunc (q : ℚ) : ℤ := if q < 0 then ⌈q⌉ else ⌊q⌋

/-- The per-post conversion loop body of `FetchPosts`: map the decoded
Reddit fields into a `models.Post`, stamping `processedTime` with the time
taken just before the loop. -/
def toPost (now : ℚ) (d : RedditPostData) : Post :=
  { id := d.id
    title := d.title
    author := d.author
    subreddit := d.subreddit
    url := d.url
    createdUTC := d.createdUTC
    createdAt := (intTrunc d.createdUTC : ℚ)
    upvotes := d.ups
    downvotes := d.downs
    score := d.score
    numComments := d.numComments
    postHint := d.postHint
    isVideo := d.isVideo
    isSelf := d.isSelf
    selfText := d.selfText
    permalink := d.permalink
    processedTime := now }

/-- Oracle outcome of the listing HTTP request. -/
inductive FetchOutcome
  | netError : FetchOutcome
  | response (status : ℤ) (headers : RateHeaders) (decodeOk : Bool)
      (children : List RedditPostData) (nextAfter : String) : FetchOutcome
deriving DecidableEq, Repr

/-- Everything the environment decides during one attempt of `FetchPosts`:
the current time seen by `authenticate`, the time stamped on processed
posts, the outcomes of the two rate acquisitions and of the two HTTP
exchanges. -/
structure FetchAttempt where
  now : ℚ
  procNow : ℚ
  authRateOk : Bool
  authOut : AuthOutcome
  fetchRateOk : Bool
  fetchOut : FetchOutcome
deriving DecidableEq, Repr

/-- The observable result of `FetchPosts`: the Go return triple
`(posts, after, error)` plus, as instrumentation, the seconds slept in the
flat rate-limit retry delay and the endpoints of the HTTP requests
issued. -/
structure FetchResult where
  posts : List Post
  after : String
  error : Option APIError
  sleepSeconds : ℕ
  requests : List String
deriving DecidableEq, Repr

/-- The endpoint string built by `FetchPosts`; the `after` query parameter
is appended only when the cursor is non-empty. -/
def endpoint (subreddit : String) (limit : ℤ) (after : String) : String :=
  baseURL ++ "/r/" ++ subreddit ++ "/new.json?limit=" ++ toString limit ++
    (if after = "" then "" else "&after=" ++ after)

/-- Method `FetchPosts`, driven by a trace of attempt environments (one per
pass through the body; the recursive rate-limit retry consumes the next
element).  `none` means every supplied attempt failed rate acquisition and
the code is still inside its unbounded retry, having returned nothing. -/
def FetchPosts (r : ClientState) (subreddit : String) (limit : ℤ)
    (after : String) : List FetchAttempt → Option (FetchResult × ClientState)
  | [] => none
  | a :: rest =>
    match authenticate r a.now a.authRateOk a.authOut with
    | (Except.error e, r1, _) =>
      some ({ posts := [], after := "", error := some e, sleepSeconds := 0,
              requests := [] }, r1)
    | (Except.ok _, r1, _) =>
      let limit1 := if limit ≤ 0 ∨ 100 < limit then defaultLimit else limit
      if a.fetchRateOk then
        let ep := endpoint subreddit limit1 after
        match a.fetchOut with
        | FetchOutcome.netError =>
          some ({ posts := [], after := "",
                  error := some APIError.requestFailed,
                  sleepSeconds := 0, requests := [ep] }, r1)
        | FetchOutcome.response status headers decodeOk children nextAfter =>
          let r2 := updateRateLimits r1 headers
          if status ≠ 200 then
            some ({ posts := [], after := "",
                    error := some (APIError.statusError status),
                    sleepSeconds := 0, requests := [ep] }, r2)
          else if decodeOk = false then
            some ({ posts := [], after := "",
                    error := some APIError.decodeError,
                    sleepSeconds := 0, requests := [ep] }, r2)
          else
            some ({ posts := children.map (toPost a.procNow),
                    after := nextAfter, error := none,
                    sleepSeconds := 0, requests := [ep] }, r2)
      else
        match FetchPosts r1 subreddit limit1 after rest with
        | none => none
        | some (res, r2) =>
          some ({ res with sleepSeconds := res.sleepSeconds + 1 }, r2)

/-- C10: when the stored access token is non-empty and the current time is
before `tokenExpiry`, `authenticate` returns success immediately, attempts
no rate-limiter acquisition (third component `false`), and leaves the
client state unchanged. -/
theorem authenticate_cached_token_noop (r : ClientState) (now : ℚ)
    (rateOk : Bool) (out : AuthOutcome)
    (htok : r.accessToken ≠ "") (hexp : now < r.tokenExpiry) :
    authenticate r now rateOk out = (Except.ok (), r, false) := by
  unfold authenticate
  rw [if_pos ⟨htok, hexp⟩]

/-- Witness for `authenticate_cached_token_noop` at a concrete client. -/
theorem authenticate_cached_token_noop_witness :
    authenticate
      { accessToken := "tok", tokenExpiry := 100, rateRemainingCached := 0,
        rateResetCached := 600, rateUsedCached := 0,
        rateLimiter := NewTokenBucket 1 1 30, maxRequestsPerMin := 100 }
      0 true AuthOutcome.netError =
      (Except.ok (),
        { accessToken := "tok", tokenExpiry := 100, rateRemainingCached := 0,
          rateResetCached := 600, rateUsedCached := 0,
          rateLimiter := NewTokenBucket 1 1 30, maxRequestsPerMin := 100 },
        false) :=
  authenticate_cached_token_noop _ 0 true AuthOutcome.netError
    (by decide) (by norm_num)

/-- C9: when the used and reset headers both parse to 0, `updateRateLimits`
returns the state unchanged (cached snapshot and limiter untouched); absent
(empty) and non-numeric header values parse to 0, and parsing is total, so
malformed headers never fail. -/
theorem updateRateLimits_skip_on_zero :
    (∀ (r : ClientState) (h : RateHeaders),
      getHeaderAsInt h.used = 0 → getHeaderAsInt h.reset = 0 →
      updateRateLimits r h = r) ∧
    getHeaderAsInt "" = 0 ∧ getHeaderAsInt "n/a" = 0 := by
  refine ⟨?_, by decide, by decide⟩
  intro r h hu hr
  unfold updateRateLimits
  dsimp only
  rw [if_pos ⟨hr, hu⟩]

/-- Witness for `updateRateLimits_skip_on_zero`: absent used header and a
non-numeric reset header leave a concrete client unchanged. -/
theorem updateRateLimits_skip_on_zero_witness :
    updateRateLimits
      { accessToken := "", tokenExpiry := 0, rateRemainingCached := 0,
        rateResetCached := 600, rateUsedCached := 0,
        rateLimiter := NewTokenBucket 1 1 30, maxRequestsPerMin := 100 }
      { used := "", remaining := "7", reset := "soon" } =
      { accessToken := "", tokenExpiry := 0, rateRemainingCached := 0,
        rateResetCached := 600, rateUsedCached := 0,
        rateLimiter := NewTokenBucket 1 1 30, maxRequestsPerMin := 100 } :=
  updateRateLimits_skip_on_zero.1 _ _ (by decide) (by decide)

/-- C6: when authentication succeeds but the fetch-level rate acquisition
fails, `FetchPosts` sleeps a flat 1 second and retries the entire fetch
(the recursion re-enters `authenticate`); the attempt itself produces no
error.  A trace of nothing but such failed acquisitions keeps it retrying
indefinitely with no value — in particular no rate-budget error — ever
returned. -/
theorem FetchPosts_rate_retry :
    (∀ (r : ClientState) (subreddit : String) (limit : ℤ) (after : String)
        (a : FetchAttempt) (rest : List FetchAttempt),
      (authenticate r a.now a.authRateOk a.authOut).1 = Except.ok () →
      a.fetchRateOk = false →
      FetchPosts r subreddit limit after (a :: rest) =
        Option.map
          (fun p => ({ p.1 with sleepSeconds := p.1.sleepSeconds + 1 }, p.2))
          (FetchPosts (authenticate r a.now a.authRateOk a.authOut).2.1
            subreddit (if limit ≤ 0 ∨ 100 < limit then defaultLimit else limit)
            after rest)) ∧
    (∀ (r : ClientState) (subreddit : String) (limit : ℤ) (after : String)
        (trace : List FetchAttempt),
      r.accessToken ≠ "" →
      (∀ a ∈ trace, a.now < r.tokenExpiry ∧ a.fetchRateOk = false) →
      FetchPosts r subreddit limit after trace = none) := by
  constructor
  · intro r subreddit limit after a rest hauth1 hfr
    rcases hauth : authenticate r a.now a.authRateOk a.authOut with ⟨res, r1, flag⟩
    rw [hauth] at hauth1
    dsimp only at hauth1
    subst hauth1
    simp only [FetchPosts, hauth, hfr, Bool.false_eq_true, if_false]
    rcases hrec : FetchPosts r1 subreddit
        (if limit ≤ 0 ∨ 100 < limit then defaultLimit else limit) after rest
      with _ | ⟨res2, r2⟩ <;> simp [hrec]
  · intro r subreddit limit after trace htok htrace
    induction trace generalizing limit with
    | nil => simp [FetchPosts]
    | cons a rest ih =>
      have ha := htrace a (List.mem_cons_self _ _)
      have hauth : authenticate r a.now a.authRateOk a.authOut =
          (Except.ok (), r, false) := by
        unfold authenticate
        rw [if_pos ⟨htok, ha.1⟩]
      simp only [FetchPosts, hauth, ha.2, Bool.false_eq_true, if_false]
      rw [ih (if limit ≤ 0 ∨ 100 < limit then defaultLimit else limit)
        (fun x hx => htrace x (List.mem_cons_of_mem _ hx))]

/-- Witness for `FetchPosts_rate_retry`: a single rate-failed attempt on a
client with a valid cached token retries (into the empty trace) and
returns nothing. -/
theorem FetchPosts_rate_retry_witness :
    FetchPosts
      { accessToken := "tok", tokenExpiry := 100, rateRemainingCached := 0,
        rateResetCached := 600, rateUsedCached := 0,
        rateLimiter := NewTokenBucket 1 1 30, maxRequestsPerMin := 100 }
      "golang" 50 ""
      [{ now := 0, procNow := 0, authRateOk := true,
         authOut := AuthOutcome.netError, fetchRateOk := false,
         fetchOut := FetchOutcome.netError }] = none := by
  have h := FetchPosts_rate_retry.2
    { accessToken := "tok", tokenExpiry := 100, rateRemainingCached := 0,
      rateResetCached := 600, rateUsedCached := 0,
      rateLimiter := NewTokenBucket 1 1 30, maxRequestsPerMin := 100 }
    "golang" 50 ""
    [{ now := 0, procNow := 0, authRateOk := true,
       authOut := AuthOutcome.netError, fetchRateOk := false,
       fetchOut := FetchOutcome.netError }]
    (by decide)
    (by
      intro a ha
      simp only [List.mem_singleton] at ha
      subst ha
      exact ⟨by norm_num, rfl⟩)
  exact h

/-- C7: the page-size limit is clamped to 100 exactly when it is
non-positive or above 100, and is passed through unchanged otherwise; an
empty cursor omits the `after` query parameter from the endpoint; and the
single request issued by a rate-gated attempt of `FetchPosts` uses exactly
that endpoint with the clamped limit. -/
theorem FetchPosts_limit_clamped :
    (∀ limit : ℤ, limit ≤ 0 ∨ 100 < limit →
      (if limit ≤ 0 ∨ 100 < limit then defaultLimit else limit) = 100) ∧
    (∀ limit : ℤ, 0 < limit → limit ≤ 100 →
      (if limit ≤ 0 ∨ 100 < limit then defaultLimit else limit) = limit) ∧
    (∀ (subreddit : String) (limit : ℤ),
      endpoint subreddit limit "" =
        baseURL ++ "/r/" ++ subreddit ++ "/new.json?limit=" ++
          toString limit) ∧
    (∀ (r : ClientState) (subreddit : String) (limit : ℤ) (after : String)
        (a : FetchAttempt) (rest : List FetchAttempt),
      (authenticate r a.now a.authRateOk a.authOut).1 = Except.ok () →
      a.fetchRateOk = true →
      ∃ res r2,
        FetchPosts r subreddit limit after (a :: rest) = some (res, r2) ∧
          res.requests =
            [endpoint subreddit
              (if limit ≤ 0 ∨ 100 < limit then defaultLimit else limit)
              after]) := by
  refine ⟨?_, ?_, ?_, ?_⟩
  · intro limit h
    rw [if_pos h]
    rfl
  · intro limit h1 h2
    rw [if_neg]
    push_neg
    exact ⟨h1, h2⟩
  · intro subreddit limit
    unfold endpoint
    rw [if_pos rfl, String.append_empty]
  · intro r subreddit limit after a rest hauth1 hfr
    rcases hauth : authenticate r a.now a.authRateOk a.authOut
      with ⟨res, r1, flag⟩
    rw [hauth] at hauth1
    dsimp only at hauth1
    subst hauth1
    simp only [FetchPosts, hauth, hfr, if_true]
    rcases a.fetchOut with _ | ⟨status, headers, decodeOk, children, nextAfter⟩
    · exact ⟨_, _, rfl, rfl⟩
    · dsimp only
      split_ifs <;> exact ⟨_, _, rfl, rfl⟩

/-- Witness for `FetchPosts_limit_clamped`: limits 0, 250 and 50, an empty
cursor endpoint, and a concrete rate-gated attempt. -/
theorem FetchPosts_limit_clamped_witness :
    ((if (0 : ℤ) ≤ 0 ∨ 100 < (0 : ℤ) then defaultLimit else 0) = 100) ∧
    ((if (250 : ℤ) ≤ 0 ∨ 100 < (250 : ℤ) then defaultLimit else 250) = 100) ∧
    ((if (50 : ℤ) ≤ 0 ∨ 100 < (50 : ℤ) then defaultLimit else 50) = 50) ∧
    (endpoint "golang" 100 "" =
      baseURL ++ "/r/" ++ "golang" ++ "/new.json?limit=" ++
        toString (100 : ℤ)) ∧
    (∃ res r2,
      FetchPosts
        { accessToken := "tok", tokenExpiry := 100, rateRemainingCached := 0,
          rateResetCached := 600, rateUsedCached := 0,
          rateLimiter := NewTokenBucket 1 1 30, maxRequestsPerMin := 100 }
        "golang" 250 ""
        [{ now := 0, procNow := 0, authRateOk := true,
           authOut := AuthOutcome.netError, fetchRateOk := true,
           fetchOut := FetchOutcome.netError }] = some (res, r2) ∧
        res.requests =
          [endpoint "golang"
            (if (250 : ℤ) ≤ 0 ∨ 100 < (250 : ℤ) then defaultLimit else 250)
            ""]) :=
  ⟨FetchPosts_limit_clamped.1 0 (by norm_num),
   FetchPosts_limit_clamped.1 250 (by norm_num),
   FetchPosts_limit_clamped.2.1 50 (by norm_num) (by norm_num),
   FetchPosts_limit_clamped.2.2.1 "golang" 100,
   FetchPosts_limit_clamped.2.2.2 _ "golang" 250 ""
     { now := 0, procNow := 0, authRateOk := true,
       authOut := AuthOutcome.netError, fetchRateOk := true,
       fetchOut := FetchOutcome.netError } []
     (by simp [authenticate]) rfl⟩

/-- C8: a rate-gated attempt whose HTTP response has a non-200 status or an
undecodable body makes `FetchPosts` return a typed error together with an
empty post list and empty cursor; the result does not depend on the rest of
the trace, i.e. the fetcher performs no retry of that request. -/
theorem FetchPosts_error_no_retry (r : ClientState) (subreddit : String)
    (limit : ℤ) (after : String) (a : FetchAttempt)
    (rest : List FetchAttempt) (status : ℤ) (headers : RateHeaders)
    (decodeOk : Bool) (children : List RedditPostData) (nextAfter : String)
    (hauth1 : (authenticate r a.now a.authRateOk a.authOut).1 = Except.ok ())
    (hfr : a.fetchRateOk = true)
    (hout : a.fetchOut =
      FetchOutcome.response status headers decodeOk children nextAfter)
    (hbad : status ≠ 200 ∨ decodeOk = false) :
    ∃ e : APIError,
      FetchPosts r subreddit limit after (a :: rest) =
        some ({ posts := [], after := "", error := some e, sleepSeconds := 0,
                requests :=
                  [endpoint subreddit
                    (if limit ≤ 0 ∨ 100 < limit then defaultLimit else limit)
                    after] },
          updateRateLimits (authenticate r a.now a.authRateOk a.authOut).2.1
            headers) := by
  rcases hauth : authenticate r a.now a.authRateOk a.authOut
    with ⟨res, r1, flag⟩
  rw [hauth] at hauth1
  dsimp only at hauth1
  subst hauth1
  simp only [FetchPosts, hauth, hfr, if_true, hout]
  by_cases hst : status = 200
  · subst hst
    rcases hbad with hs | hd
    · exact absurd rfl hs
    · subst hd
      rw [if_neg (by norm_num)]
      exact ⟨APIError.decodeError, rfl⟩
  · rw [if_pos hst]
    exact ⟨APIError.statusError status, rfl⟩

/-- Witness for `FetchPosts_error_no_retry`: a 404 response on a concrete
attempt. -/
theorem FetchPosts_error_no_retry_witness :
    ∃ e : APIError,
      FetchPosts
        { accessToken := "tok", tokenExpiry := 100, rateRemainingCached := 0,
          rateResetCached := 600, rateUsedCached := 0,
          rateLimiter := NewTokenBucket 1 1 30, maxRequestsPerMin := 100 }
        "golang" 50 ""
        [{ now := 0, procNow := 0, authRateOk := true,
           authOut := AuthOutcome.netError, fetchRateOk := true,
           fetchOut := FetchOutcome.response 404
             { used := "", remaining := "", reset := "" } true [] "" }] =
        some ({ posts := [], after := "", error := some e, sleepSeconds := 0,
                requests :=
                  [endpoint "golang"
                    (if (50 : ℤ) ≤ 0 ∨ 100 < (50 : ℤ) then defaultLimit
                      else 50) ""] },
          updateRateLimits
            (authenticate
              { accessToken := "tok", tokenExpiry := 100,
                rateRemainingCached := 0, rateResetCached := 600,
                rateUsedCached := 0, rateLimiter := NewTokenBucket 1 1 30,
                maxRequestsPerMin := 100 }
              0 true AuthOutcome.netError).2.1
            { used := "", remaining := "", reset := "" }) :=
  FetchPosts_error_no_retry _ "golang" 50 ""
    { now := 0, procNow := 0, authRateOk := true,
      authOut := AuthOutcome.netError, fetchRateOk := true,
      fetchOut := FetchOutcome.response 404
        { used := "", remaining := "", reset := "" } true [] "" }
    [] 404 { used := "", remaining := "", reset := "" } true [] ""
    (by simp [authenticate]) rfl rfl (Or.inl (by norm_num))

end RedditTracker
